import Mathlib

/-!
Shallow embedding of the StrasBoard server core: the freshness-aware
response cache (server/cache.go), the fetch-with-cache aggregator
(server/main.go), the Response envelope and its constructors
(server/source.go), the electricity and tempo publication-cutoff
freshness policies (server/source_electricity.go and the tempo source),
and the transport source's parameterized live fetch.

Modelling conventions:
* Instants are natural numbers counting seconds on the civil timeline of
  the sources' configured timezone (Europe/Paris); all cutoff arithmetic
  in the Go code happens after `time.Now().In(s.loc)`, so civil-local
  seconds are exactly the coordinates the code computes in.  Durations
  are seconds (`time.Hour` = 3600, `time.Minute` = 60).
* Each Go function that calls `time.Now()` receives the current instant
  as an explicit `now : Nat` parameter (one instant per call).
* The Go `Timestamp` string field stores the production instant formatted
  as RFC3339; the formatting is injective, so the field is modelled as
  the instant itself.
* Effectful upstream calls (`Source.Fetch()`, the transport upstream
  requests) are modelled by passing the Response/result that the call
  would produce as an explicit parameter; a `Bool` component of the
  output records whether the upstream call was actually performed.
-/

def secondsPerHour : Nat := 3600

def secondsPerDay : Nat := 86400

/-- `now.Hour()` for an instant on the civil timeline. -/
def hourOf (t : Nat) : Nat := t % secondsPerDay / secondsPerHour

/-- The civil day an instant falls on (abstract day index replacing the
Go year/month/day triple). -/
def dayOf (t : Nat) : Nat := t / secondsPerDay

/-- `time.Date(year, month, day, hour, 0, 0, 0, loc)` for the civil day
`day` — the instant at `hour:00:00` local time on that day. -/
def timeDate (day hour : Nat) : Nat := day * secondsPerDay + hour * secondsPerHour

/-- `t.AddDate(0, 0, n)`: the same civil clock reading `n` days later. -/
def addDays (t n : Nat) : Nat := t + n * secondsPerDay

/-- server/source.go `Response`: the envelope exchanged between a Source
and the cache.  `data` is the opaque payload (`nil` in Go becomes
`none`), `error` is the empty string iff the fetch succeeded. -/
structure Response (α : Type) where
  data : Option α
  timestamp : Nat
  error : String
  expiresAt : Nat
deriving DecidableEq

/-- server/source.go `NewResponse`: successful response with a flat TTL. -/
def NewResponse {α : Type} (d : α) (ttl now : Nat) : Response α :=
  { data := some d, timestamp := now, error := "", expiresAt := now + ttl }

/-- server/source.go `NewResponseUntil`: successful response with an
explicit expiration instant. -/
def NewResponseUntil {α : Type} (d : α) (expiresAt now : Nat) : Response α :=
  { data := some d, timestamp := now, error := "", expiresAt := expiresAt }

/-- server/source.go `ErrorResponse`: failure with a retry TTL and no
payload. -/
def ErrorResponse {α : Type} (msg : String) (ttl now : Nat) : Response α :=
  { data := none, timestamp := now, error := msg, expiresAt := now + ttl }

/-- server/source.go `BackupResponse`: copy of a successful response with
the expiration recomputed from the degraded TTL. -/
def BackupResponse {α : Type} (original : Response α) (degradedTTL now : Nat) : Response α :=
  { data := original.data, timestamp := original.timestamp, error := "",
    expiresAt := now + degradedTTL }

/-- server/source.go `DegradedResponse`: backup payload and original
production timestamp combined with the new failure's error and
expiration. -/
def DegradedResponse {α : Type} (backup err : Response α) : Response α :=
  { data := backup.data, timestamp := backup.timestamp, error := err.error,
    expiresAt := err.expiresAt }

/-- server/cache.go `cacheItem`: per-key state; Go's nil pointers become
`none`. -/
structure cacheItem (α : Type) where
  data : Option (Response α)
  backup : Option (Response α)
deriving DecidableEq

/-- server/cache.go `Cache`: the key-value store, modelled as its lookup
function; a missing key yields the zero `cacheItem` exactly as Go's
`c.items[key]` does. -/
abbrev Cache (α : Type) := String → cacheItem α

/-- server/cache.go `NewCache`. -/
def NewCache (α : Type) : Cache α := fun _ => { data := none, backup := none }

/-- server/cache.go `Cache.Get`: the current Response if present and not
expired (`time.Now().After(ExpiresAt)` is `expiresAt < now`). -/
def Cache.Get {α : Type} (c : Cache α) (key : String) (now : Nat) : Option (Response α) :=
  match (c key).data with
  | none => none
  | some d => if d.expiresAt < now then none else some d

/-- server/cache.go `Cache.GetBackup`: the backup Response if present and
not expired. -/
def Cache.GetBackup {α : Type} (c : Cache α) (key : String) (now : Nat) : Option (Response α) :=
  match (c key).backup with
  | none => none
  | some b => if b.expiresAt < now then none else some b

/-- server/cache.go `Cache.Set`: unconditionally store `resp` as current;
iff `resp` is a success, also replace the backup by `BackupResponse`. -/
def Cache.Set {α : Type} (c : Cache α) (key : String) (resp : Response α)
    (degradedTTL now : Nat) : Cache α :=
  let item := c key
  let newItem : cacheItem α :=
    { data := some resp
      backup := if resp.error = "" then some (BackupResponse resp degradedTTL now)
                else item.backup }
  fun k => if k = key then newItem else c k

/-- server/source.go `Source` interface: a stable name, the Response the
next `Fetch()` call would produce, and the degraded TTL. -/
structure Source (α : Type) where
  name : String
  fetch : Response α
  degradedTTL : Nat

/-- server/main.go `fetchCached`: cache hit, else fetch; on failure fall
back to a degraded composition with the backup; store and return.  The
`Bool` records whether `Fetch()` was invoked. -/
def fetchCached {α : Type} (c : Cache α) (s : Source α) (now : Nat) :
    Response α × Cache α × Bool :=
  match Cache.Get c s.name now with
  | some cached => (cached, c, false)
  | none =>
    let resp :=
      if s.fetch.error ≠ "" then
        match Cache.GetBackup c s.name now with
        | some backup => DegradedResponse backup s.fetch
        | none => s.fetch
      else s.fetch
    (resp, Cache.Set c s.name resp s.degradedTTL now, true)

lemma get_eq_some_iff {α : Type} (c : Cache α) (key : String) (now : Nat) (d : Response α) :
    Cache.Get c key now = some d ↔ (c key).data = some d ∧ now ≤ d.expiresAt := by
  unfold Cache.Get
  cases h : (c key).data with
  | none => simp
  | some r =>
    by_cases hlt : r.expiresAt < now
    · simp only [hlt, if_pos]
      constructor
      · intro hc; exact absurd hc (by simp)
      · rintro ⟨hr, hle⟩
        injection hr with hr
        subst hr
        omega
    · simp only [hlt, if_neg, not_false_iff]
      constructor
      · intro hc
        injection hc with hc
        subst hc
        exact ⟨rfl, Nat.le_of_not_lt hlt⟩
      · rintro ⟨hr, _⟩
        injection hr with hr
        subst hr
        rfl

lemma getBackup_eq_some_iff {α : Type} (c : Cache α) (key : String) (now : Nat)
    (d : Response α) :
    Cache.GetBackup c key now = some d ↔ (c key).backup = some d ∧ now ≤ d.expiresAt := by
  unfold Cache.GetBackup
  cases h : (c key).backup with
  | none => simp
  | some r =>
    by_cases hlt : r.expiresAt < now
    · simp only [hlt, if_pos]
      constructor
      · intro hc; exact absurd hc (by simp)
      · rintro ⟨hr, hle⟩
        injection hr with hr
        subst hr
        omega
    · simp only [hlt, if_neg, not_false_iff]
      constructor
      · intro hc
        injection hc with hc
        subst hc
        exact ⟨rfl, Nat.le_of_not_lt hlt⟩
      · rintro ⟨hr, _⟩
        injection hr with hr
        subst hr
        rfl

lemma set_apply_same {α : Type} (c : Cache α) (key : String) (r : Response α)
    (ttl now : Nat) :
    (Cache.Set c key r ttl now) key =
      { data := some r
        backup := if r.error = "" then some (BackupResponse r ttl now)
                  else (c key).backup } := by
  unfold Cache.Set
  simp

lemma fetchCached_hit {α : Type} (c : Cache α) (s : Source α) (now : Nat) (d : Response α)
    (h : Cache.Get c s.name now = some d) :
    fetchCached c s now = (d, c, false) := by
  unfold fetchCached
  rw [h]

/-- The Response produced on a cache miss (the body of `fetchCached`
after the miss), named so lemmas can speak about it. -/
def missResp {α : Type} (c : Cache α) (s : Source α) (now : Nat) : Response α :=
  if s.fetch.error ≠ "" then
    match Cache.GetBackup c s.name now with
    | some backup => DegradedResponse backup s.fetch
    | none => s.fetch
  else s.fetch

lemma fetchCached_miss {α : Type} (c : Cache α) (s : Source α) (now : Nat)
    (h : Cache.Get c s.name now = none) :
    fetchCached c s now =
      (missResp c s now, Cache.Set c s.name (missResp c s now) s.degradedTTL now, true) := by
  unfold fetchCached missResp
  rw [h]

lemma missResp_degraded {α : Type} (c : Cache α) (s : Source α) (now : Nat)
    (b : Response α)
    (herr : s.fetch.error ≠ "")
    (hbackup : Cache.GetBackup c s.name now = some b) :
    missResp c s now = DegradedResponse b s.fetch := by
  unfold missResp
  rw [if_pos herr, hbackup]

lemma missResp_no_backup {α : Type} (c : Cache α) (s : Source α) (now : Nat)
    (herr : s.fetch.error ≠ "")
    (hbackup : Cache.GetBackup c s.name now = none) :
    missResp c s now = s.fetch := by
  unfold missResp
  rw [if_pos herr, hbackup]

/-- Claim C1: when `fetch()` fails while a valid unexpired backup exists
under the source's name, `fetchCached` returns the degraded composition:
the backup's payload and production timestamp with the new failure's
error message and expiration. -/
theorem fetchCached_degraded {α : Type} (c : Cache α) (s : Source α) (now : Nat)
    (b : Response α)
    (hget : Cache.Get c s.name now = none)
    (herr : s.fetch.error ≠ "")
    (hbackup : Cache.GetBackup c s.name now = some b) :
    (fetchCached c s now).1 =
      { data := b.data, timestamp := b.timestamp, error := s.fetch.error,
        expiresAt := s.fetch.expiresAt } := by
  rw [fetchCached_miss c s now hget]
  rw [show (missResp c s now, Cache.Set c s.name (missResp c s now) s.degradedTTL now,
        true).1 = missResp c s now from rfl]
  rw [missResp_degraded c s now b herr hbackup]
  rfl

def degradedCacheW : Cache Nat :=
  Cache.Set (NewCache Nat) "alpha" (NewResponse 7 10 0) 1000 0

def degradedSourceW : Source Nat :=
  { name := "alpha", fetch := ErrorResponse "timeout" 60 50, degradedTTL := 1000 }

/-- Witness for claim C1: a success with payload 7 stored at time 0
(current TTL 10, backup window 1000), then a failing fetch at time 50
yields payload 7, timestamp 0, error "timeout", expiration 110. -/
theorem fetchCached_degraded_witness :
    Cache.Get degradedCacheW "alpha" 50 = none
    ∧ degradedSourceW.fetch.error ≠ ""
    ∧ Cache.GetBackup degradedCacheW "alpha" 50 =
        some (BackupResponse (NewResponse 7 10 0) 1000 0)
    ∧ (fetchCached degradedCacheW degradedSourceW 50).1 =
        { data := some 7, timestamp := 0, error := "timeout", expiresAt := 110 } := by
  refine ⟨by decide, by decide, by decide, ?_⟩
  have h := fetchCached_degraded degradedCacheW degradedSourceW 50
      (BackupResponse (NewResponse 7 10 0) 1000 0) (by decide) (by decide) (by decide)
  simpa [BackupResponse, NewResponse, ErrorResponse, degradedSourceW] using h

/-- Claim C2: `set` unconditionally replaces `current` with the given
Response; it replaces `backup` iff the Response denotes success, and the
new backup preserves payload and production timestamp while its
expiration becomes `now + degradedTTL`; a failing Response leaves the
backup untouched. -/
theorem cache_set_backup_invariant {α : Type} (c : Cache α) (key : String)
    (r : Response α) (ttl now : Nat) :
    ((Cache.Set c key r ttl now) key).data = some r
    ∧ (r.error = "" →
        ((Cache.Set c key r ttl now) key).backup =
          some { data := r.data, timestamp := r.timestamp, error := "",
                 expiresAt := now + ttl })
    ∧ (r.error ≠ "" →
        ((Cache.Set c key r ttl now) key).backup = (c key).backup) := by
  rw [set_apply_same]
  refine ⟨rfl, ?_, ?_⟩
  · intro h
    rw [if_pos h]
    rfl
  · intro h
    rw [if_neg h]

/-- Witness for claim C2: storing a success replaces the backup with the
recomputed-expiration copy; storing a failure over it leaves that backup
in place. -/
theorem cache_set_backup_invariant_witness :
    (NewResponse 1 10 0 : Response Nat).error = ""
    ∧ ((Cache.Set (NewCache Nat) "k" (NewResponse 1 10 0) 100 0) "k").backup =
        some { data := (NewResponse 1 10 0 : Response Nat).data,
               timestamp := (NewResponse 1 10 0 : Response Nat).timestamp,
               error := "", expiresAt := 0 + 100 }
    ∧ (ErrorResponse "down" 5 3 : Response Nat).error ≠ ""
    ∧ ((Cache.Set (Cache.Set (NewCache Nat) "k" (NewResponse 1 10 0) 100 0) "k"
          (ErrorResponse "down" 5 3) 100 3) "k").backup =
        ((Cache.Set (NewCache Nat) "k" (NewResponse 1 10 0) 100 0) "k").backup :=
  ⟨rfl,
   (cache_set_backup_invariant (NewCache Nat) "k" (NewResponse 1 10 0) 100 0).2.1 rfl,
   by decide,
   (cache_set_backup_invariant (Cache.Set (NewCache Nat) "k" (NewResponse 1 10 0) 100 0)
      "k" (ErrorResponse "down" 5 3) 100 3).2.2 (by decide)⟩

def getBoundaryCache : Cache Nat :=
  Cache.Set (NewCache Nat) "k" (NewResponse 1 100 0) 500 0

/-- Claim C8 counterexample: with a Response stored whose `expiresAt` is
100, `get` at `now = 100` still returns it, although the claimed
condition `now < expiresAt` fails — the code rejects an entry only when
`time.Now()` is strictly after `ExpiresAt`. -/
theorem cache_get_boundary_cex :
    Cache.Get getBoundaryCache "k" 100 = some (NewResponse 1 100 0)
    ∧ ¬ (100 < (NewResponse 1 100 0 : Response Nat).expiresAt) := by
  decide

/-- Claim C8 (amended): `get` returns the current Response iff it is
present and `now ≤ expiresAt` (not strictly after), and `getBackup`
likewise for the backup; both are pure reads — in this embedding they
take no fetch input and return no modified cache. -/
theorem cache_get_getBackup_iff {α : Type} (c : Cache α) (key : String) (now : Nat)
    (d : Response α) :
    (Cache.Get c key now = some d ↔ (c key).data = some d ∧ now ≤ d.expiresAt)
    ∧ (Cache.GetBackup c key now = some d ↔ (c key).backup = some d ∧ now ≤ d.expiresAt) :=
  ⟨get_eq_some_iff c key now d, getBackup_eq_some_iff c key now d⟩

/-- Witness for claim C8 (amended): the boundary instant `now = 100`
satisfies the amended condition and the equivalence holds there. -/
theorem cache_get_getBackup_iff_witness :
    (Cache.Get getBoundaryCache "k" 100 = some (NewResponse 1 100 0) ↔
      (getBoundaryCache "k").data = some (NewResponse 1 100 0)
        ∧ 100 ≤ (NewResponse 1 100 0 : Response Nat).expiresAt) :=
  (cache_get_getBackup_iff getBoundaryCache "k" 100 (NewResponse 1 100 0)).1

/-- Claim C6: when `fetch()` fails and no valid backup exists under the
source's name, `fetchCached` returns a Result carrying the error message
and an absent payload (not a zero value). -/
theorem fetchCached_error_no_backup {α : Type} (c : Cache α) (s : Source α) (now : Nat)
    (msg : String) (ttl tf : Nat)
    (hget : Cache.Get c s.name now = none)
    (hbackup : Cache.GetBackup c s.name now = none)
    (hfetch : s.fetch = ErrorResponse msg ttl tf)
    (hmsg : msg ≠ "") :
    (fetchCached c s now).1.data = none ∧ (fetchCached c s now).1.error = msg := by
  have herr : s.fetch.error ≠ "" := by
    rw [hfetch]
    exact hmsg
  rw [fetchCached_miss c s now hget]
  rw [show (missResp c s now, Cache.Set c s.name (missResp c s now) s.degradedTTL now,
        true).1 = missResp c s now from rfl]
  rw [missResp_no_backup c s now herr hbackup, hfetch]
  exact ⟨rfl, rfl⟩

def errorOnlySourceW : Source Nat :=
  { name := "beta", fetch := ErrorResponse "boom" 60 5, degradedTTL := 100 }

/-- Witness for claim C6: a first-ever failing fetch against the empty
cache produces an error-only Result with no payload. -/
theorem fetchCached_error_no_backup_witness :
    Cache.Get (NewCache Nat) "beta" 5 = none
    ∧ Cache.GetBackup (NewCache Nat) "beta" 5 = none
    ∧ ("boom" : String) ≠ ""
    ∧ (fetchCached (NewCache Nat) errorOnlySourceW 5).1.data = none
    ∧ (fetchCached (NewCache Nat) errorOnlySourceW 5).1.error = "boom" := by
  refine ⟨by decide, by decide, by decide, ?_, ?_⟩
  · exact (fetchCached_error_no_backup (NewCache Nat) errorOnlySourceW 5 "boom" 60 5
      (by decide) (by decide) rfl (by decide)).1
  · exact (fetchCached_error_no_backup (NewCache Nat) errorOnlySourceW 5 "boom" 60 5
      (by decide) (by decide) rfl (by decide)).2

/-- Claim C3: calling `fetchCached` a second time while the Result of the
first call is still unexpired returns that same Result from the cache,
leaves the cache unchanged, and does not invoke `fetch()` again (the
`false` component); the second source may carry an arbitrary different
`fetch` outcome, which is never consulted. -/
theorem fetchCached_cache_hit_second_call {α : Type} (c : Cache α) (s1 s2 : Source α)
    (now1 now2 : Nat)
    (hname : s2.name = s1.name)
    (hfresh : now2 ≤ (fetchCached c s1 now1).1.expiresAt) :
    fetchCached (fetchCached c s1 now1).2.1 s2 now2 =
      ((fetchCached c s1 now1).1, (fetchCached c s1 now1).2.1, false) := by
  cases hG : Cache.Get c s1.name now1 with
  | some cached =>
    rw [fetchCached_hit c s1 now1 cached hG] at hfresh ⊢
    have hdata : (c s1.name).data = some cached :=
      ((get_eq_some_iff c s1.name now1 cached).1 hG).1
    have hget2 : Cache.Get c s2.name now2 = some cached := by
      rw [hname]
      exact (get_eq_some_iff c s1.name now2 cached).2 ⟨hdata, by simpa using hfresh⟩
    exact fetchCached_hit c s2 now2 cached hget2
  | none =>
    rw [fetchCached_miss c s1 now1 hG] at hfresh ⊢
    simp only at hfresh ⊢
    have hget2 : Cache.Get (Cache.Set c s1.name (missResp c s1 now1) s1.degradedTTL now1)
        s2.name now2 = some (missResp c s1 now1) := by
      rw [hname]
      refine (get_eq_some_iff _ s1.name now2 _).2 ⟨?_, hfresh⟩
      rw [set_apply_same]
    exact fetchCached_hit _ s2 now2 _ hget2

def hitSourceFirstW : Source Nat :=
  { name := "alpha", fetch := NewResponse 1 100 0, degradedTTL := 48 }

def hitSourceSecondW : Source Nat :=
  { name := "alpha", fetch := NewResponse 2 100 50, degradedTTL := 48 }

/-- Witness for claim C3: a fetch at time 0 stores a Result expiring at
100; a second call at time 50 (with a source that would fetch different
data) returns the first Result unchanged without fetching. -/
theorem fetchCached_cache_hit_second_call_witness :
    hitSourceSecondW.name = hitSourceFirstW.name
    ∧ 50 ≤ (fetchCached (NewCache Nat) hitSourceFirstW 0).1.expiresAt
    ∧ fetchCached (fetchCached (NewCache Nat) hitSourceFirstW 0).2.1 hitSourceSecondW 50 =
        ((fetchCached (NewCache Nat) hitSourceFirstW 0).1,
         (fetchCached (NewCache Nat) hitSourceFirstW 0).2.1, false) :=
  ⟨rfl, by decide,
   fetchCached_cache_hit_second_call (NewCache Nat) hitSourceFirstW hitSourceSecondW 0 50
     rfl (by decide)⟩

def electricityRetryTTL : Nat := 3600

def electricityRefreshHour : Nat := 4

/-- server/source_electricity.go `Consumption`: one daily/monthly data
point.  The Go `Date` field is a zero-padded "YYYY-MM-DD" string compared
with the string order, which is order-isomorphic to comparing civil day
indices, so the date is modelled as the day index; the eight per-tariff
integer fields never influence control flow (they are opaque payload) and
are not part of the freshness model. -/
structure Consumption where
  date : Nat
deriving DecidableEq

/-- server/source_electricity.go `ElectricityData`. -/
structure ElectricityData where
  days : List Consumption
  months : List Consumption
deriving DecidableEq

/-- server/source_electricity.go, `ElectricitySource.Fetch` line
`hasYesterday`: the days list is non-empty and its last entry's date is
at least yesterday's (`date >= day - 1`, written additively). -/
def hasYesterday (data : ElectricityData) (now : Nat) : Bool :=
  match data.days.getLast? with
  | none => false
  | some c => decide (dayOf now ≤ c.date + 1)

/-- server/source_electricity.go `ElectricitySource.Fetch`.  The
credentials are the configuration check; `fetched` is the outcome the
`fetchData` upstream call would produce at this invocation. -/
def electricityFetch (username password : String)
    (fetched : Except String ElectricityData) (now : Nat) : Response ElectricityData :=
  if username = "" ∨ password = "" then
    ErrorResponse "electricity not configured" 3600 now
  else
    match fetched with
    | .error e => ErrorResponse e 600 now
    | .ok data =>
      if hourOf now < electricityRefreshHour then
        NewResponseUntil data (timeDate (dayOf now) electricityRefreshHour) now
      else if hasYesterday data now then
        NewResponseUntil data (addDays (timeDate (dayOf now) electricityRefreshHour) 1) now
      else
        NewResponse data electricityRetryTTL now

def tempoRetryTTL : Nat := 3600

def tempoProvisionalHour : Nat := 8

def tempoDefinitiveHour : Nat := 11

/-- Tempo source `TempoDay`. -/
structure TempoDay where
  date : String
  color : String
deriving DecidableEq

abbrev TempoData := List TempoDay

/-- Tempo source `TempoSource.Fetch`; `fetched` is the outcome the
`fetchData` upstream call would produce at this invocation. -/
def tempoFetch (authToken : String) (fetched : Except String TempoData) (now : Nat) :
    Response TempoData :=
  if authToken = "" then
    ErrorResponse "tempo not configured" 3600 now
  else
    match fetched with
    | .error e => ErrorResponse e 600 now
    | .ok data =>
      if hourOf now < tempoProvisionalHour then
        NewResponseUntil data (timeDate (dayOf now) tempoProvisionalHour) now
      else if tempoDefinitiveHour ≤ hourOf now then
        NewResponseUntil data (addDays (timeDate (dayOf now) tempoProvisionalHour) 1) now
      else
        NewResponse data tempoRetryTTL now

/-- Claim C4: for both cutoff-policy sources, a successful fetch strictly
before the day's first cutoff (04:00 for electricity, 08:00 for tempo,
local time) expires exactly at today's cutoff instant in the source's
local timezone, not at `now` plus a flat TTL. -/
theorem cutoff_before_first_cutoff (u p a : String) (ed : ElectricityData)
    (td : TempoData) (now1 now2 : Nat)
    (hu : u ≠ "") (hp : p ≠ "") (ha : a ≠ "")
    (h1 : hourOf now1 < electricityRefreshHour)
    (h2 : hourOf now2 < tempoProvisionalHour) :
    (electricityFetch u p (Except.ok ed) now1).expiresAt =
      timeDate (dayOf now1) electricityRefreshHour
    ∧ (tempoFetch a (Except.ok td) now2).expiresAt =
      timeDate (dayOf now2) tempoProvisionalHour := by
  constructor
  · simp [electricityFetch, hu, hp, h1, NewResponseUntil]
  · simp [tempoFetch, ha, h2, NewResponseUntil]

/-- Witness for claim C4: at 03:00 on day 0 electricity data expires at
04:00 (instant 14400); at 07:00 tempo data expires at 08:00 (28800). -/
theorem cutoff_before_first_cutoff_witness :
    hourOf 10800 < electricityRefreshHour
    ∧ hourOf 25200 < tempoProvisionalHour
    ∧ (electricityFetch "u" "p" (Except.ok { days := [], months := [] }) 10800).expiresAt
        = 14400
    ∧ (tempoFetch "t" (Except.ok []) 25200).expiresAt = 28800 := by
  have h := cutoff_before_first_cutoff "u" "p" "t" { days := [], months := [] } [] 10800
    25200 (by decide) (by decide) (by decide) (by decide) (by decide)
  refine ⟨by decide, by decide, ?_, ?_⟩
  · rw [h.1]; decide
  · rw [h.2]; decide

def elecCexData : ElectricityData := { days := [{ date := 9 }], months := [] }

/-- Claim C5 counterexample: at local time 03:00 on day 10 (instant
874800) the freshly fetched electricity data already contains
yesterday's data point (day 9), yet the computed expiration is today's
04:00 cutoff (878400), not the next day's first cutoff
(`timeDate (dayOf 874800 + 1) 4` = 964800): before the day's first
cutoff the code ignores the confirmed boundary. -/
theorem electricity_confirmed_before_cutoff_cex :
    hasYesterday elecCexData 874800 = true
    ∧ (electricityFetch "u" "p" (Except.ok elecCexData) 874800).expiresAt = 878400
    ∧ (878400 : Nat) ≠ timeDate (dayOf 874800 + 1) electricityRefreshHour := by
  decide

/-- Claim C5 (amended): provided the day's first cutoff has already
passed, once the electricity data is confirmed to include the expected
boundary (latest daily data point's date at least yesterday's) the
expiration is the next day's first cutoff; for tempo, once the final
cutoff (local hour >= 11) has passed, likewise the next day's first
cutoff. -/
theorem cutoff_confirmed_next_day (u p a : String) (ed : ElectricityData)
    (td : TempoData) (now1 now2 : Nat)
    (hu : u ≠ "") (hp : p ≠ "") (ha : a ≠ "")
    (h1 : electricityRefreshHour ≤ hourOf now1)
    (hy : hasYesterday ed now1 = true)
    (h2 : tempoDefinitiveHour ≤ hourOf now2) :
    (electricityFetch u p (Except.ok ed) now1).expiresAt =
      timeDate (dayOf now1 + 1) electricityRefreshHour
    ∧ (tempoFetch a (Except.ok td) now2).expiresAt =
      timeDate (dayOf now2 + 1) tempoProvisionalHour := by
  constructor
  · have hn : ¬ hourOf now1 < electricityRefreshHour := Nat.not_lt.2 h1
    simp [electricityFetch, hu, hp, hn, hy, NewResponseUntil, addDays, timeDate,
      secondsPerDay, secondsPerHour]
    ring
  · have h8 : tempoProvisionalHour ≤ tempoDefinitiveHour := by decide
    have hn : ¬ hourOf now2 < tempoProvisionalHour := Nat.not_lt.2 (le_trans h8 h2)
    simp [tempoFetch, ha, hn, h2, NewResponseUntil, addDays, timeDate,
      secondsPerDay, secondsPerHour]
    ring

def elecConfirmedData : ElectricityData := { days := [{ date := 9 }], months := [] }

/-- Witness for claim C5 (amended): at 05:00 on day 10 with yesterday's
data present, electricity expires at day 11's 04:00 (964800); at 12:00 on
day 0, tempo expires at day 1's 08:00 (115200). -/
theorem cutoff_confirmed_next_day_witness :
    electricityRefreshHour ≤ hourOf 882000
    ∧ hasYesterday elecConfirmedData 882000 = true
    ∧ tempoDefinitiveHour ≤ hourOf 43200
    ∧ (electricityFetch "u" "p" (Except.ok elecConfirmedData) 882000).expiresAt = 964800
    ∧ (tempoFetch "t" (Except.ok []) 43200).expiresAt = 115200 := by
  have h := cutoff_confirmed_next_day "u" "p" "t" elecConfirmedData [] 882000 43200
    (by decide) (by decide) (by decide) (by decide) (by decide) (by decide)
  refine ⟨by decide, by decide, by decide, ?_, ?_⟩
  · rw [h.1]; decide
  · rw [h.2]; decide

/-- server/main.go `AllData`: one entry per configured source (Go's nil
pointers become `none`) plus the combined timestamp. -/
structure AllData (α : Type) where
  weather : Option (Response α)
  transport : Option (Response α)
  temperature : Option (Response α)
  electricity : Option (Response α)
  tempo : Option (Response α)
  timestamp : Nat

/-- The `results[n] = fetchCached(cache, s)` loop body of
server/main.go `fetchAll`: every goroutine runs `fetchCached` against
the shared cache and records its Response under the map key; the
goroutine fan-out joined by `wg.Wait()` is modelled as sequential
threading of the shared cache (the five cache keys are distinct, and the
barrier joins every outcome before assembly in any interleaving). -/
def runSources {α : Type} (c : Cache α) (now : Nat) :
    List (String × Source α) → List (String × Response α) × Cache α
  | [] => ([], c)
  | (n, s) :: rest =>
    let out := fetchCached c s now
    let restOut := runSources out.2.1 now rest
    ((n, out.1) :: restOut.1, restOut.2)

/-- Go map read `results[n]` (missing key gives nil). -/
def lookupResp {α : Type} : List (String × Response α) → String → Option (Response α)
  | [], _ => none
  | (n, r) :: rest, k => if k = n then some r else lookupResp rest k

/-- The source map literal of server/main.go `main` (lines 43-49). -/
def mkSources {α : Type} (w tr te el tp : Source α) : List (String × Source α) :=
  [("weather", w), ("transport", tr), ("temperature", te), ("electricity", el),
   ("tempo", tp)]

/-- server/main.go `fetchAll`: run every source's `fetchCached`, join all
outcomes, then assemble `AllData` from the results map with a combined
timestamp taken at assembly time (`asmNow`, the `time.Now()` after
`wg.Wait()`). -/
def fetchAll {α : Type} (c : Cache α) (sources : List (String × Source α))
    (now asmNow : Nat) : AllData α × Cache α :=
  match runSources c now sources with
  | (results, cFinal) =>
    ({ weather := lookupResp results "weather"
       transport := lookupResp results "transport"
       temperature := lookupResp results "temperature"
       electricity := lookupResp results "electricity"
       tempo := lookupResp results "tempo"
       timestamp := asmNow }, cFinal)

/-- Claim C7: for every cache state, source set and timing, the combined
fetch joins all five per-source fetches and produces an entry for every
configured source — present even when that source's fetch failed, since
`fetchCached` always returns a Response — and its single combined
timestamp is the assembly-time instant, not any individual Response's
timestamp. -/
theorem fetchAll_complete {α : Type} (c : Cache α) (w tr te el tp : Source α)
    (now asmNow : Nat) :
    ((fetchAll c (mkSources w tr te el tp) now asmNow).1.weather.isSome = true)
    ∧ ((fetchAll c (mkSources w tr te el tp) now asmNow).1.transport.isSome = true)
    ∧ ((fetchAll c (mkSources w tr te el tp) now asmNow).1.temperature.isSome = true)
    ∧ ((fetchAll c (mkSources w tr te el tp) now asmNow).1.electricity.isSome = true)
    ∧ ((fetchAll c (mkSources w tr te el tp) now asmNow).1.tempo.isSome = true)
    ∧ (fetchAll c (mkSources w tr te el tp) now asmNow).1.timestamp = asmNow :=
  ⟨rfl, rfl, rfl, rfl, rfl, rfl⟩

def transportTTL : Nat := 120

def transportLiveTTL : Nat := 20

/-- Transport source `Departure`. -/
structure Departure where
  time : String
  realtime : Bool
deriving DecidableEq

/-- Transport source `Destination`. -/
structure Destination where
  name : String
  departures : List Departure
deriving DecidableEq

/-- Transport source `StopData`. -/
structure StopData where
  id : Int
  name : String
  line : String
  color : String
  colorText : String
  destinations : List Destination
deriving DecidableEq

/-- Transport source `stopInfo` (config-resolved stop). -/
structure stopInfo where
  line : String
  name : String
  stopRef : String
  color : String
  colorText : String
deriving DecidableEq

/-- Transport source `departureCache`: one entry of the source-private
`map[int]*departureCache`. -/
structure departureCache where
  destinations : List Destination
  fetchedAt : Nat
deriving DecidableEq

/-- Transport source `TransportSource` state: API key, configured stops,
resolution flag and the private departure cache (the Go map, missing key
giving `none`). -/
structure TransportSource where
  apiKey : String
  stops : List stopInfo
  ready : Bool
  cache : Int → Option departureCache

/-- Transport source `getDepartures`: serve the private cache entry if
younger than `maxAge` (Go `time.Since(fetchedAt) < maxAge`), otherwise
perform the upstream request (`upstream` is its outcome) and store the
result on success.  The `Bool` records whether upstream was called. -/
def getDepartures (s : TransportSource) (upstream : Except String (List Destination))
    (id : Int) (maxAge now : Nat) :
    Except String (List Destination) × TransportSource × Bool :=
  let fresh : Option (List Destination) :=
    match s.cache id with
    | some cached => if now - cached.fetchedAt < maxAge then some cached.destinations
                     else none
    | none => none
  match fresh with
  | some dests => (.ok dests, s, false)
  | none =>
    match upstream with
    | .error e => (.error e, s, true)
    | .ok dests =>
      (.ok dests,
       { s with cache := fun k =>
           if k = id then some ⟨dests, now⟩ else s.cache k }, true)

/-- Transport source `getStopData`: build `StopData` from the stop's
static info (`st`, the caller's in-bounds read of `s.stops[id]`) and the
cached/fetched departures; `none` on error (Go returns nil). -/
def getStopData (s : TransportSource) (upstream : Except String (List Destination))
    (id : Int) (st : stopInfo) (maxAge now : Nat) :
    Option StopData × TransportSource × Bool :=
  match getDepartures s upstream id maxAge now with
  | (.error _, sNext, b) => (none, sNext, b)
  | (.ok dests, sNext, b) =>
    (some { id := id, name := st.name, line := st.line, color := st.color,
            colorText := st.colorText, destinations := dests }, sNext, b)

/-- Transport source `FetchLive`: the parameterized live fetch.  The Go
short-circuit guard `id < 0 || id >= len(s.stops) || !s.ready ||
s.stops[id].stopRef == ""` is modelled with the indexing step explicit:
the outer `Option` is `none` exactly when Go would index the stop slice
out of bounds (a panic), which the guards make unreachable. -/
def FetchLive (s : TransportSource) (upstream : Except String (List Destination))
    (id : Int) (now : Nat) :
    Option (Response StopData × TransportSource × Bool) :=
  if s.apiKey = "" then
    some (ErrorResponse "transport not configured" 3600 now, s, false)
  else if id < 0 ∨ (s.stops.length : Int) ≤ id ∨ s.ready = false then
    some (ErrorResponse "invalid stop" 60 now, s, false)
  else
    match s.stops.get? id.toNat with
    | none => none
    | some st =>
      if st.stopRef = "" then
        some (ErrorResponse "invalid stop" 60 now, s, false)
      else
        match getStopData s upstream id st transportLiveTTL now with
        | (none, sNext, b) => some (ErrorResponse "fetch failed" 60 now, sNext, b)
        | (some data, sNext, b) => some (NewResponse data transportLiveTTL now, sNext, b)

def unconfiguredTransport : TransportSource :=
  { apiKey := "", stops := [], ready := false, cache := fun _ => none }

/-- Claim C10 counterexample: with the transport API key unconfigured,
`FetchLive(-1)` returns the "transport not configured" error Result
(the configuration guard precedes the stop guard), not the claimed
"invalid stop" one. -/
theorem fetchLive_unconfigured_cex :
    (FetchLive unconfiguredTransport (Except.error "e") (-1) 0).map Prod.fst =
      some (ErrorResponse "transport not configured" 3600 0)
    ∧ ("transport not configured" : String) ≠ "invalid stop" := by
  constructor
  · rfl
  · decide

/-- Claim C10 (amended): provided the transport API key is configured,
`FetchLive` is total in its id argument: whenever id is negative, beyond
the configured stops, the stops are unresolved, or the addressed stop has
no resolved reference, it returns the "invalid stop" error Result with a
one-minute retry TTL; and for every id the result is defined (`isSome`),
i.e. the stop list is never indexed out of bounds. -/
theorem fetchLive_total (s : TransportSource) (up : Except String (List Destination))
    (id : Int) (now : Nat)
    (hkey : s.apiKey ≠ "") :
    ((id < 0 ∨ (s.stops.length : Int) ≤ id ∨ s.ready = false) →
        FetchLive s up id now = some (ErrorResponse "invalid stop" 60 now, s, false))
    ∧ (∀ st : stopInfo, 0 ≤ id → s.stops.get? id.toNat = some st → st.stopRef = "" →
        FetchLive s up id now = some (ErrorResponse "invalid stop" 60 now, s, false))
    ∧ (FetchLive s up id now).isSome = true := by
  unfold FetchLive
  rw [if_neg hkey]
  refine ⟨?_, ?_, ?_⟩
  · intro h
    rw [if_pos h]
  · intro st h0 hget href
    by_cases hguard : id < 0 ∨ (s.stops.length : Int) ≤ id ∨ s.ready = false
    · rw [if_pos hguard]
    · rw [if_neg hguard]
      simp only [hget]
      rw [if_pos href]
  · by_cases hguard : id < 0 ∨ (s.stops.length : Int) ≤ id ∨ s.ready = false
    · rw [if_pos hguard]
      rfl
    · rw [if_neg hguard]
      push_neg at hguard
      obtain ⟨h0, hlen, _⟩ := hguard
      have hlt : id.toNat < s.stops.length := by omega
      cases hget : s.stops.get? id.toNat with
      | none =>
        exact absurd (List.get?_eq_none.1 hget) (Nat.not_le.2 hlt)
      | some st =>
        by_cases href : st.stopRef = ""
        · simp [href]
        · rcases hsd : getStopData s up id st transportLiveTTL now with ⟨od, sN, b⟩
          cases od with
          | none => simp [href, hsd]
          | some data => simp [href, hsd]

def guardStopW : stopInfo :=
  { line := "L", name := "N", stopRef := "", color := "", colorText := "" }

def guardTransportW : TransportSource :=
  { apiKey := "key", stops := [guardStopW], ready := true, cache := fun _ => none }

/-- Witness for claim C10 (amended): a configured source with one
unresolved stop: id 0 yields the "invalid stop" Result, and an
out-of-range id 7 still yields a defined Result. -/
theorem fetchLive_total_witness :
    guardTransportW.apiKey ≠ ""
    ∧ FetchLive guardTransportW (Except.error "e") 0 5 =
        some (ErrorResponse "invalid stop" 60 5, guardTransportW, false)
    ∧ (FetchLive guardTransportW (Except.error "e") 7 5).isSome = true := by
  refine ⟨by decide, ?_, ?_⟩
  · exact (fetchLive_total guardTransportW (Except.error "e") 0 5 (by decide)).2.1
      guardStopW (by decide) (by decide) (by decide)
  · exact (fetchLive_total guardTransportW (Except.error "e") 7 5 (by decide)).2.2

lemma getDepartures_stale (s : TransportSource) (up : Except String (List Destination))
    (id : Int) (maxAge now : Nat)
    (hstale : ((s.cache id).all fun cached =>
        decide (maxAge ≤ now - cached.fetchedAt)) = true) :
    getDepartures s up id maxAge now =
      match up with
      | .error e => (.error e, s, true)
      | .ok dests => (.ok dests, { s with cache := fun k => if k = id then some ⟨dests, now⟩ else s.cache k }, true) := by
  unfold getDepartures
  cases hc : s.cache id with
  | none => simp [hc]
  | some cached =>
    have h1 : ¬ (now - cached.fetchedAt < maxAge) := by
      rw [hc] at hstale
      simp [Option.all] at hstale
      omega
    simp [hc, h1]

/-- Refinement model written from the spec's words for claim C9: the
claimed behavior of the transport live fetch — the core Cache and the
fetch-with-cache algorithm applied identically, keyed by a sub-identity
derived from the source name and the sub-entity id (here
`name ++ ":" ++ id`), with the live degraded window. -/
def specFetchOne (c : Cache StopData) (sourceName : String) (id : Int)
    (fetch : Response StopData) (degradedTTL now : Nat) :
    Response StopData × Cache StopData × Bool :=
  fetchCached c { name := sourceName ++ ":" ++ toString id, fetch := fetch,
                  degradedTTL := degradedTTL } now

def liveDest : Destination := { name := "Dest", departures := [] }

def liveTransportCex : TransportSource :=
  { apiKey := "key"
    stops := [{ line := "A", name := "Stop", stopRef := "ref", color := "c",
                colorText := "t" }]
    ready := true
    cache := fun k => if k = 0 then some { destinations := [liveDest], fetchedAt := 0 }
             else none }

def livePayloadCex : StopData :=
  { id := 0, name := "Stop", line := "A", color := "c", colorText := "t",
    destinations := [liveDest] }

def liveCoreCacheCex : Cache StopData :=
  Cache.Set (NewCache StopData) "transport:0" (NewResponse livePayloadCex 20 0) 3600 0

/-- Claim C9 counterexample: after a success at time 0 and an upstream
failure at time 100 (past both freshness windows), the code's
`FetchLive` returns an error-only Result with no payload, while the
spec's fetch-with-cache algorithm over the shared core cache
(`specFetchOne`, same prior success stored under the derived sub-key)
returns the degraded Result still carrying the backed-up payload — so
`FetchLive` is not served by the core cache nor by the fetch-with-cache
algorithm with its backup/degraded fallback. -/
theorem fetchLive_not_core_cache_cex :
    (FetchLive liveTransportCex (Except.error "timeout") 0 100).map
        (fun out => out.1.data) = some none
    ∧ (specFetchOne liveCoreCacheCex "transport" 0 (ErrorResponse "timeout" 60 100)
        3600 100).1.data = some livePayloadCex := by
  constructor
  · rfl
  · rfl

/-- The `StopData` value `getStopData` assembles from a stop's static
info and a departures list (notation helper for the statements below). -/
def mkStopData (id : Int) (st : stopInfo) (dests : List Destination) : StopData :=
  { id := id, name := st.name, line := st.line, color := st.color,
    colorText := st.colorText, destinations := dests }

/-- Claim C9 (amended): the transport live fetch is not served by the
core Cache or the fetch-with-cache algorithm; it serves from the
transport source's private departure cache, shared with the source's own
`Fetch` and keyed by the integer stop id, with the 20-second live
freshness window: a call while the entry is younger than the window
returns the cached departures without any upstream call and leaves the
source unchanged; a call with the entry stale (or absent) performs the
upstream request, returning an error-only Result with no payload on
failure (no backup fallback) and storing the fetched departures under
the id on success. -/
theorem fetchLive_private_cache (s : TransportSource)
    (up : Except String (List Destination)) (id : Int) (st : stopInfo) (now : Nat)
    (hkey : s.apiKey ≠ "") (h0 : 0 ≤ id) (hlen : id < (s.stops.length : Int))
    (hready : s.ready = true)
    (hget : s.stops.get? id.toNat = some st)
    (href : st.stopRef ≠ "") :
    (∀ cached : departureCache, s.cache id = some cached →
        now - cached.fetchedAt < transportLiveTTL →
        FetchLive s up id now =
          some (NewResponse (mkStopData id st cached.destinations) transportLiveTTL now,
            s, false))
    ∧ (((s.cache id).all fun cached =>
          decide (transportLiveTTL ≤ now - cached.fetchedAt)) = true →
        ∀ e : String, up = Except.error e →
        FetchLive s up id now = some (ErrorResponse "fetch failed" 60 now, s, true))
    ∧ (((s.cache id).all fun cached =>
          decide (transportLiveTTL ≤ now - cached.fetchedAt)) = true →
        ∀ dests : List Destination, up = Except.ok dests →
        FetchLive s up id now =
          some (NewResponse (mkStopData id st dests) transportLiveTTL now,
            { s with cache := fun k => if k = id then some ⟨dests, now⟩ else s.cache k },
            true)) := by
  have hguard : ¬ (id < 0 ∨ (s.stops.length : Int) ≤ id ∨ s.ready = false) := by
    push_neg
    refine ⟨by omega, by omega, by simp [hready]⟩
  have hgetE : s.stops[id.toNat]? = some st := by
    rw [← List.get?_eq_getElem?]
    exact hget
  refine ⟨?_, ?_, ?_⟩
  · intro cached hc hfresh
    have hgd : getDepartures s up id transportLiveTTL now =
        (.ok cached.destinations, s, false) := by
      simp [getDepartures, hc, hfresh]
    simp [FetchLive, hkey, hguard, hget, hgetE, href, getStopData, hgd, mkStopData]
  · intro hstale e hup
    subst hup
    have hgd : getDepartures s (Except.error e) id transportLiveTTL now =
        (.error e, s, true) := by
      rw [getDepartures_stale s (Except.error e) id transportLiveTTL now hstale]
    simp [FetchLive, hkey, hguard, hget, hgetE, href, getStopData, hgd, mkStopData]
  · intro hstale dests hup
    subst hup
    have hgd : getDepartures s (Except.ok dests) id transportLiveTTL now =
        (.ok dests, { s with cache := fun k => if k = id then some ⟨dests, now⟩ else s.cache k }, true) := by
      rw [getDepartures_stale s (Except.ok dests) id transportLiveTTL now hstale]
    simp [FetchLive, hkey, hguard, hget, hgetE, href, getStopData, hgd, mkStopData]

def liveStopW : stopInfo :=
  { line := "A", name := "Stop", stopRef := "ref", color := "c", colorText := "t" }

def liveTransportW : TransportSource :=
  { apiKey := "key"
    stops := [liveStopW]
    ready := true
    cache := fun k => if k = 0 then some { destinations := [liveDest], fetchedAt := 90 }
             else none }

/-- Witness for claim C9 (amended): a live fetch at time 100 with a
private-cache entry fetched at 90 (10 seconds old, within the 20-second
window) serves the cached departures without touching upstream. -/
theorem fetchLive_private_cache_witness :
    liveTransportW.apiKey ≠ ""
    ∧ liveTransportW.cache 0 = some { destinations := [liveDest], fetchedAt := 90 }
    ∧ 100 - 90 < transportLiveTTL
    ∧ FetchLive liveTransportW (Except.error "ignored") 0 100 =
        some (NewResponse (mkStopData 0 liveStopW [liveDest]) transportLiveTTL 100,
          liveTransportW, false) := by
  refine ⟨by decide, by decide, by decide, ?_⟩
  exact (fetchLive_private_cache liveTransportW (Except.error "ignored") 0 liveStopW 100
      (by decide) (by decide) (by decide) (by decide) (by decide) (by decide)).1
      { destinations := [liveDest], fetchedAt := 90 } (by decide) (by decide)
